import Mathlib

/-
Shallow embedding of the WearableAI backend (src/server/main.py).

The server is a single orchestration endpoint: it receives an uploaded
audio file, resolves a filename for the transcription API, calls the
transcription service, and (when the transcription is non-empty) calls
the chat-completion service for advice, degrading gracefully when the
advice call fails.  The two outbound services are modelled as oracles
supplied in an environment; every outcome of an outbound call is one of
success, a provider error (the OpenAIError branch in the source), or any
other unexpected exception (the generic except branch).  The function
process_audio returns a trace: the HTTP-level result together with the
transcription call and the list of advice calls it made.
-/

/-- Multipart upload as received by the endpoint: optional filename,
optional declared content type, and the raw bytes. -/
structure Upload where
  filename : Option String
  content_type : Option String
  content : List Nat
deriving Repr, DecidableEq

/-- Outcome of a call to an external service: success, a provider error
(OpenAIError in the source), or any other unexpected exception. Both
error forms carry the string rendering of the exception. -/
inductive ApiResult (α : Type) where
  | success (value : α)
  | openAIError (msg : String)
  | otherError (msg : String)
deriving Repr, DecidableEq

/-- The tuple (filename, data, content type) passed to the transcription
API, mirroring file_tuple in the source. -/
structure TranscribeCall where
  filename : String
  data : List Nat
  content_type : Option String
deriving Repr, DecidableEq

/-- A chat message returned by the completion API; content is optional
because the provider may return a null content. -/
structure ChatMessage where
  content : Option String
deriving Repr, DecidableEq

/-- One choice of a chat completion response. -/
structure Choice where
  message : ChatMessage
deriving Repr, DecidableEq

/-- A chat completion response: a list of choices. -/
structure ChatCompletion where
  choices : List Choice
deriving Repr, DecidableEq

/-- The request sent to the chat-completion API: model name, the two
prompt messages, and the sampling parameters. -/
structure ChatRequest where
  model : String
  system_content : String
  user_content : String
  temperature : ℚ
  max_tokens : Nat
deriving Repr, DecidableEq

/-- Environment of external collaborators: the transcription service and
the chat-completion (advice) service. -/
structure Env where
  transcribe : TranscribeCall → ApiResult String
  complete : ChatRequest → ApiResult ChatCompletion

/-- The JSON body returned on success. -/
structure ResponseRecord where
  transcription : String
  advice : String
deriving Repr, DecidableEq

/-- Result of one request: a normal JSON response, or an HTTPException
with a status code and a detail string. -/
inductive ProcessResult where
  | ok (record : ResponseRecord)
  | httpError (status : Nat) (detail : String)
deriving Repr, DecidableEq

/-- Trace of one invocation of process_audio: its result, the call made
to the transcription service, and the calls made to the advice service. -/
structure Trace where
  result : ProcessResult
  transcribe_call : TranscribeCall
  advice_calls : List ChatRequest
deriving Repr, DecidableEq

/-- Filename derived from the declared content type, mirroring the
if/elif chain in the source (the branch taken when the upload has a
falsy filename). -/
def filenameFromContentType (content_type : Option String) : String :=
  if content_type = some "audio/mpeg" then "audio.mp3"
  else if content_type = some "audio/wav" then "audio.wav"
  else if content_type = some "audio/ogg" then "audio.ogg"
  else if content_type = some "audio/mp4" ∨ content_type = some "video/mp4" then "audio.mp4"
  else if content_type = some "audio/m4a" then "audio.m4a"
  else "audio.webm"

/-- Filename resolution: the source tests `if not audio_file.filename`,
which is true both when the filename is missing and when it is the empty
string; in either case the filename is derived from the content type,
otherwise the given filename is used as-is. -/
def resolveFilename (filename content_type : Option String) : String :=
  match filename with
  | none => filenameFromContentType content_type
  | some f => if f = "" then filenameFromContentType content_type else f

/-- The transcription call built from an upload: resolved filename, raw
bytes, and the declared content type (mirrors file_tuple). -/
def transcribeCallOf (audio_file : Upload) : TranscribeCall :=
  ⟨resolveFilename audio_file.filename audio_file.content_type,
   audio_file.content, audio_file.content_type⟩

/-- The fixed system prompt sent to the advice model. -/
def system_prompt : String :=
  "Actúas como un asistente social inteligente. Has escuchado la conversación transcrita del usuario en un entorno de trabajo. Si detectas una oportunidad para ayudarlo a expresarse mejor, calmar tensiones, ser más claro o socialmente hábil, genera una frase corta y útil. Sé empático, proactivo y no invasivo."

/-- The user message, embedding the transcription verbatim in the fixed
template of the source f-string. -/
def user_message (transcription_text : String) : String :=
  "Conversación transcrita:\n\n" ++ transcription_text ++ "\n\n¿Qué consejo sutil podrías ofrecer en este momento?"

/-- The chat-completion request made for a given transcription text,
with the sampling parameters fixed in the source (temperature 0.7,
max_tokens 100). -/
def adviceRequest (transcription_text : String) : ChatRequest :=
  { model := "gpt-4o"
    system_content := system_prompt
    user_content := user_message transcription_text
    temperature := 7/10
    max_tokens := 100 }

/-- Extraction of choices[0].message.content: none when the choices list
is empty (IndexError in the source) or when the first content is null
(AttributeError on strip in the source). -/
def firstChoiceContent (resp : ChatCompletion) : Option String :=
  match resp.choices with
  | [] => none
  | c :: _ => c.message.content

/-- The advice-generation step of process_audio: skipped with a fixed
placeholder when the transcription is empty; otherwise one call to the
advice service, whose failure (of either kind, including a malformed
success response) degrades to a placeholder rather than an error.
Returns the advice text and the list of advice calls made. -/
def adviceStep (env : Env) (transcription_text : String) : String × List ChatRequest :=
  if transcription_text ≠ "" then
    let req := adviceRequest transcription_text
    match env.complete req with
    | .success resp =>
      match firstChoiceContent resp with
      | some c => (c.trim, [req])
      | none => ("Error generating advice.", [req])
    | .openAIError _ => ("Error generating advice from LLM.", [req])
    | .otherError _ => ("Error generating advice.", [req])
  else
    ("Transcription failed, cannot generate advice.", [])

/-- The POST endpoint process_audio: resolve the filename, call the
transcription service (failure of either kind raises HTTPException 500
with the exception message in the detail), then run the advice step and
return the JSON record. -/
def process_audio (env : Env) (audio_file : Upload) : Trace :=
  match env.transcribe (transcribeCallOf audio_file) with
  | .openAIError e =>
    ⟨.httpError 500 ("Whisper API error: " ++ e), transcribeCallOf audio_file, []⟩
  | .otherError e =>
    ⟨.httpError 500 ("Failed to transcribe audio: " ++ e), transcribeCallOf audio_file, []⟩
  | .success transcription_text =>
    ⟨.ok ⟨transcription_text, (adviceStep env transcription_text).1⟩,
     transcribeCallOf audio_file, (adviceStep env transcription_text).2⟩

/-- The fixed message of the GET / health endpoint. -/
def root_message : String := "Wearable AI Backend is running"

/-- A request to the HTTP surface of the app. -/
inductive Request where
  | postProcessAudio (audio_file : Upload)
  | getRoot
deriving Repr

/-- An HTTP response of the app: JSON success body, the liveness
message, or an error with status and detail. -/
inductive HttpResponse where
  | json200 (transcription advice : String)
  | message200 (message : String)
  | error (status : Nat) (detail : String)
deriving Repr, DecidableEq

/-- The app dispatch: both endpoints, stateless. -/
def handle (env : Env) : Request → HttpResponse
  | .postProcessAudio u =>
    match (process_audio env u).result with
    | .ok r => .json200 r.transcription r.advice
    | .httpError s d => .error s d
  | .getRoot => .message200 root_message

/-- Serving a sequence of requests: each is handled independently, with
no state carried between them (the app holds no per-request state). -/
def serve (env : Env) (reqs : List Request) : List HttpResponse :=
  reqs.map (handle env)

/-- An environment whose two services return fixed outcomes. -/
def constEnv (tr : ApiResult String) (co : ApiResult ChatCompletion) : Env :=
  ⟨fun _ => tr, fun _ => co⟩

/-- A sample upload used for concrete instantiations. -/
def sampleUpload : Upload := ⟨none, some "audio/wav", [1, 2, 3]⟩

/-- Claim C1: if the transcription step fails with a provider error or
any other exception, process_audio fails the request with status 500,
the detail contains the error message, and the advice service is never
invoked. -/
theorem C1_transcription_failure_is_fatal (env : Env) (u : Upload) (e : String)
    (h : env.transcribe (transcribeCallOf u) = .openAIError e ∨
         env.transcribe (transcribeCallOf u) = .otherError e) :
    ∃ d, (process_audio env u).result = .httpError 500 d ∧
      (∃ p, d = p ++ e) ∧ (process_audio env u).advice_calls = [] := by
  unfold process_audio
  rcases h with h | h <;> rw [h] <;>
    exact ⟨_, rfl, ⟨_, rfl⟩, rfl⟩

/-- Witness for C1 at a concrete environment and upload. -/
theorem C1_witness :
    ∃ d, (process_audio (constEnv (.openAIError "boom") (.success ⟨[]⟩)) sampleUpload).result = .httpError 500 d ∧
      (∃ p, d = p ++ "boom") ∧
      (process_audio (constEnv (.openAIError "boom") (.success ⟨[]⟩)) sampleUpload).advice_calls = [] :=
  C1_transcription_failure_is_fatal _ _ "boom" (Or.inl rfl)

/-- Claim C2: when transcription succeeds with non-empty text, an advice
failure never crosses the request boundary: a provider error yields the
fixed LLM placeholder, any other exception yields the generic
placeholder, and the request returns a success record with the
transcription populated. -/
theorem C2_advice_failure_degrades (env : Env) (u : Upload) (t : String)
    (ht : env.transcribe (transcribeCallOf u) = .success t) (hne : t ≠ "") :
    (∀ e, env.complete (adviceRequest t) = .openAIError e →
      (process_audio env u).result = .ok ⟨t, "Error generating advice from LLM."⟩) ∧
    (∀ e, env.complete (adviceRequest t) = .otherError e →
      (process_audio env u).result = .ok ⟨t, "Error generating advice."⟩) := by
  unfold process_audio
  rw [ht]
  constructor <;> intro e he <;>
    simp [adviceStep, hne, he]

/-- Witness for C2: a concrete environment whose advice service raises a
provider error. -/
theorem C2_witness :
    (process_audio (constEnv (.success "hola") (.openAIError "x")) sampleUpload).result =
      .ok ⟨"hola", "Error generating advice from LLM."⟩ :=
  (C2_advice_failure_degrades (constEnv (.success "hola") (.openAIError "x"))
    sampleUpload "hola" rfl (by decide)).1 "x" rfl

/-- Claim C3: when transcription succeeds with empty text, the advice
service is never invoked and the request returns success with the fixed
placeholder advice. -/
theorem C3_empty_transcription_skips_advice (env : Env) (u : Upload)
    (ht : env.transcribe (transcribeCallOf u) = .success "") :
    (process_audio env u).result = .ok ⟨"", "Transcription failed, cannot generate advice."⟩ ∧
    (process_audio env u).advice_calls = [] := by
  unfold process_audio
  rw [ht]
  simp [adviceStep]

/-- Witness for C3 at a concrete environment. -/
theorem C3_witness :
    (process_audio (constEnv (.success "") (.openAIError "x")) sampleUpload).result =
      .ok ⟨"", "Transcription failed, cannot generate advice."⟩ ∧
    (process_audio (constEnv (.success "") (.openAIError "x")) sampleUpload).advice_calls = [] :=
  C3_empty_transcription_skips_advice (constEnv (.success "") (.openAIError "x")) sampleUpload rfl

/-- Claim C5: when transcription succeeds with non-empty text T, the
advice service is invoked exactly once, its user message contains T
verbatim inside the fixed template, and the returned record has
transcription equal to T. -/
theorem C5_advice_invoked_once_with_text (env : Env) (u : Upload) (t : String)
    (ht : env.transcribe (transcribeCallOf u) = .success t) (hne : t ≠ "") :
    (process_audio env u).advice_calls = [adviceRequest t] ∧
    (∃ p s, (adviceRequest t).user_content = p ++ t ++ s) ∧
    (∃ adv, (process_audio env u).result = .ok ⟨t, adv⟩) := by
  unfold process_audio
  rw [ht]
  refine ⟨?_, ⟨"Conversación transcrita:\n\n", "\n\n¿Qué consejo sutil podrías ofrecer en este momento?", rfl⟩, ?_⟩
  · rcases hc : env.complete (adviceRequest t) with resp | e | e
    · rcases hf : firstChoiceContent resp with _ | c <;> simp [adviceStep, hne, hc, hf]
    · simp [adviceStep, hne, hc]
    · simp [adviceStep, hne, hc]
  · exact ⟨_, rfl⟩

/-- Witness for C5 at a concrete environment. -/
theorem C5_witness :
    (process_audio (constEnv (.success "hola") (.success ⟨[]⟩)) sampleUpload).advice_calls =
      [adviceRequest "hola"] ∧
    (∃ p s, (adviceRequest "hola").user_content = p ++ "hola" ++ s) ∧
    (∃ adv, (process_audio (constEnv (.success "hola") (.success ⟨[]⟩)) sampleUpload).result =
      .ok ⟨"hola", adv⟩) :=
  C5_advice_invoked_once_with_text (constEnv (.success "hola") (.success ⟨[]⟩))
    sampleUpload "hola" rfl (by decide)

/-- Claim C6: when the advice service is invoked and succeeds with an
extractable first choice, the advice equals the trimmed content of that
choice, and the single call made caps the output at 100 tokens with a
moderate (strictly between 0 and 1) sampling temperature of 0.7. -/
theorem C6_advice_success_trimmed_and_bounded (env : Env) (u : Upload) (t : String)
    (resp : ChatCompletion) (c : String)
    (ht : env.transcribe (transcribeCallOf u) = .success t) (hne : t ≠ "")
    (hc : env.complete (adviceRequest t) = .success resp)
    (hfc : firstChoiceContent resp = some c) :
    (process_audio env u).result = .ok ⟨t, c.trim⟩ ∧
    (process_audio env u).advice_calls = [adviceRequest t] ∧
    (adviceRequest t).max_tokens = 100 ∧
    (adviceRequest t).temperature = 7/10 ∧
    0 < (adviceRequest t).temperature ∧ (adviceRequest t).temperature < 1 := by
  unfold process_audio
  rw [ht]
  refine ⟨?_, ?_, rfl, rfl, by norm_num [adviceRequest], by norm_num [adviceRequest]⟩ <;>
    simp [adviceStep, hne, hc, hfc]

/-- Witness for C6 at a concrete environment whose advice service
returns one choice with padded content. -/
theorem C6_witness :
    (process_audio
      (constEnv (.success "hola") (.success ⟨[⟨⟨some "  consejo  "⟩⟩]⟩)) sampleUpload).result =
      .ok ⟨"hola", ("  consejo  ").trim⟩ ∧
    (process_audio
      (constEnv (.success "hola") (.success ⟨[⟨⟨some "  consejo  "⟩⟩]⟩)) sampleUpload).advice_calls =
      [adviceRequest "hola"] ∧
    (adviceRequest "hola").max_tokens = 100 ∧
    (adviceRequest "hola").temperature = 7/10 ∧
    0 < (adviceRequest "hola").temperature ∧ (adviceRequest "hola").temperature < 1 :=
  C6_advice_success_trimmed_and_bounded
    (constEnv (.success "hola") (.success ⟨[⟨⟨some "  consejo  "⟩⟩]⟩))
    sampleUpload "hola" ⟨[⟨⟨some "  consejo  "⟩⟩]⟩ "  consejo  " rfl (by decide) rfl rfl

/-- Claim C7: the health endpoint always returns the same fixed message,
and serving it has no effect on, and is not affected by, any other
requests served by the app. -/
theorem C7_health_check_fixed (env : Env) (reqs : List Request) :
    handle env Request.getRoot = .message200 "Wearable AI Backend is running" ∧
    serve env (reqs ++ [Request.getRoot]) =
      serve env reqs ++ [HttpResponse.message200 "Wearable AI Backend is running"] := by
  constructor
  · rfl
  · simp [serve, handle, root_message]

/-- Helper: whatever the transcription outcome, the call sent to the
transcription service is the one built from the upload metadata. -/
theorem process_audio_transcribe_call_eq (env : Env) (u : Upload) :
    (process_audio env u).transcribe_call = transcribeCallOf u := by
  unfold process_audio
  rcases env.transcribe (transcribeCallOf u) with t | e | e <;> rfl

/-- Claim C8: the filename sent to the transcription service depends
only on the upload filename and declared content type; two uploads that
agree on those (under any environments) yield the same sent filename,
whatever their byte content. -/
theorem C8_filename_independent_of_content (env1 env2 : Env) (u1 u2 : Upload)
    (hf : u1.filename = u2.filename) (hct : u1.content_type = u2.content_type) :
    (process_audio env1 u1).transcribe_call.filename =
      (process_audio env2 u2).transcribe_call.filename := by
  rw [process_audio_transcribe_call_eq, process_audio_transcribe_call_eq]
  simp [transcribeCallOf, hf, hct]

/-- Witness for C8: two uploads with the same metadata but different
bytes. -/
theorem C8_witness :
    (process_audio (constEnv (.success "hola") (.success ⟨[]⟩))
        ⟨some "a.wav", some "audio/wav", [1]⟩).transcribe_call.filename =
    (process_audio (constEnv (.success "hola") (.success ⟨[]⟩))
        ⟨some "a.wav", some "audio/wav", [2]⟩).transcribe_call.filename :=
  C8_filename_independent_of_content _ _ _ _ rfl rfl

/-- Claim C9: after a non-empty transcription the request always
returns a success record, and when the advice service returns a
structurally malformed success (no choices, or a first choice with null
content) the extraction failure is absorbed and the advice is the
generic placeholder. -/
theorem C9_malformed_advice_response_degrades (env : Env) (u : Upload) (t : String)
    (ht : env.transcribe (transcribeCallOf u) = .success t) (hne : t ≠ "") :
    (∃ adv, (process_audio env u).result = .ok ⟨t, adv⟩) ∧
    (∀ resp, env.complete (adviceRequest t) = .success resp →
      resp.choices = [] ∨ (∃ ch l, resp.choices = ch :: l ∧ ch.message.content = none) →
      (process_audio env u).result = .ok ⟨t, "Error generating advice."⟩) := by
  unfold process_audio
  rw [ht]
  constructor
  · exact ⟨_, rfl⟩
  · intro resp hc hm
    have hfc : firstChoiceContent resp = none := by
      rcases hm with hm | ⟨ch, l, hcl, hnone⟩
      · simp [firstChoiceContent, hm]
      · simp [firstChoiceContent, hcl, hnone]
    simp [adviceStep, hne, hc, hfc]

/-- Witness for C9: a concrete advice service returning an empty choices
list. -/
theorem C9_witness :
    (process_audio (constEnv (.success "hola") (.success ⟨[]⟩)) sampleUpload).result =
      .ok ⟨"hola", "Error generating advice."⟩ :=
  (C9_malformed_advice_response_degrades (constEnv (.success "hola") (.success ⟨[]⟩))
    sampleUpload "hola" rfl (by decide)).2 ⟨[]⟩ rfl (Or.inl rfl)

/-- Claim C10: once transcription succeeds, the transcription text is
returned exactly as received (empty string included), whatever the
advice step does. -/
theorem C10_transcription_preserved (env : Env) (u : Upload) (t : String)
    (ht : env.transcribe (transcribeCallOf u) = .success t) :
    ∃ adv, (process_audio env u).result = .ok ⟨t, adv⟩ := by
  unfold process_audio
  rw [ht]
  exact ⟨_, rfl⟩

/-- Witness for C10: an untrimmed transcription with surrounding blanks
is preserved exactly. -/
theorem C10_witness :
    ∃ adv, (process_audio (constEnv (.success " hola ") (.success ⟨[]⟩)) sampleUpload).result =
      .ok ⟨" hola ", adv⟩ :=
  C10_transcription_preserved (constEnv (.success " hola ") (.success ⟨[]⟩))
    sampleUpload " hola " rfl

/-- Counterexample to claim C4 as stated: an upload whose filename is
the empty string has a filename, yet it is not used as-is; the falsy
test in the source falls back to the content-type lookup, so the
filename sent to the transcription service is "audio.wav", not "". -/
theorem C4_counterexample :
    (process_audio (constEnv (.success "hola") (.success ⟨[]⟩))
        ⟨some "", some "audio/wav", [1]⟩).transcribe_call.filename = "audio.wav" ∧
    ¬ (process_audio (constEnv (.success "hola") (.success ⟨[]⟩))
        ⟨some "", some "audio/wav", [1]⟩).transcribe_call.filename = "" := by
  constructor
  · rfl
  · decide

/-- Claim C4 amended: for an upload with no filename or with an empty
filename, the filename sent to the transcription service is derived from
the declared content type by the fixed lookup table, any other or absent
content type yielding "audio.webm"; a non-empty filename is used
as-is. -/
theorem C4_filename_resolution (_u : Unit) :
    (∀ ct, resolveFilename none ct = filenameFromContentType ct) ∧
    (∀ ct, resolveFilename (some "") ct = filenameFromContentType ct) ∧
    (∀ f ct, f ≠ "" → resolveFilename (some f) ct = f) ∧
    filenameFromContentType (some "audio/mpeg") = "audio.mp3" ∧
    filenameFromContentType (some "audio/wav") = "audio.wav" ∧
    filenameFromContentType (some "audio/ogg") = "audio.ogg" ∧
    filenameFromContentType (some "audio/mp4") = "audio.mp4" ∧
    filenameFromContentType (some "video/mp4") = "audio.mp4" ∧
    filenameFromContentType (some "audio/m4a") = "audio.m4a" ∧
    (∀ ct, ct ≠ some "audio/mpeg" → ct ≠ some "audio/wav" → ct ≠ some "audio/ogg" →
      ct ≠ some "audio/mp4" → ct ≠ some "video/mp4" → ct ≠ some "audio/m4a" →
      filenameFromContentType ct = "audio.webm") := by
  refine ⟨fun ct => rfl, fun ct => by simp [resolveFilename], ?_,
    by decide, by decide, by decide, by decide, by decide, by decide, ?_⟩
  · intro f ct hf
    simp [resolveFilename, hf]
  · intro ct h1 h2 h3 h4 h5 h6
    simp [filenameFromContentType, h1, h2, h3, h4, h5, h6]

/-- Witness for C4: a non-empty filename is used as-is. -/
theorem C4_witness :
    resolveFilename (some "clip.mp3") none = "clip.mp3" :=
  (C4_filename_resolution ()).2.2.1 "clip.mp3" none (by decide)
